import Mathlib

/-!
Verification of the mpv auxiliary build scripts: the waf bootstrap script
(`bootstrap.py`) and the custom dependency probes
(`waftools/checks/custom.py`).

The bootstrap script is embedded as a pure function from an abstract world
(whether a file named `waf` exists, what version it reports, the downloaded
payload bytes, the file mode observed right after the write) to a result
record listing every externally visible effect the script performs.

The dependency probes are embedded as state-passing functions over an
explicit build context, with an event trace recording every compile probe
and pkg-config query attempted.  The probe primitives (`check_cc`,
`check_libs`, `check_pkg_config`, `compose_checks`) and the fragment files
are supplied by the external waf framework and are not part of the sources
under verification; their definitions below are modelled from the spec.
-/

namespace Mpv

/-! ## Bootstrap script (`bootstrap.py`) -/

/-- `WAFRELEASE = "waf-1.8.1"` from `bootstrap.py`. -/
def WAFRELEASE : String := "waf-1.8.1"

/-- `SHA256HASH` pinned hash constant from `bootstrap.py`. -/
def SHA256HASH : String :=
  "ec658116ba0b96629d91fde0b32321849e866e0819f1e835c4c2c7f7ffe1a21d"

/-- `stat.S_IXUSR` = octal 100: the owner-execute permission bit. -/
def S_IXUSR : Nat := 64

/-- The abstract world the bootstrap script runs in: whether `./waf`
exists, the stdout of `./waf --version`, the payload `urlopen(...).read()`
returns, and the `st_mode` of the file `waf` observed right after the
write (i.e. what `os.stat("waf").st_mode` yields before `os.chmod`). -/
structure BootWorld where
  wafExists : Bool
  wafVersionOut : String
  payload : List Nat
  modeAfterWrite : Nat
  deriving DecidableEq

/-- Process termination: a `sys.exit(code)` or normal end of script
(`exited`), or an uncaught exception such as an `IndexError` from the
version-string split (`crashed`). -/
inductive BootStatus where
  | exited (code : Nat)
  | crashed
  deriving DecidableEq

/-- Every externally visible effect of one run of `bootstrap.py`. -/
structure BootResult where
  status : BootStatus
  /-- whether `urlopen(WAFURL)` was reached -/
  madeRequest : Bool
  /-- whether `open("waf", "wb")` / `wf.write` happened -/
  wroteFile : Bool
  /-- the bytes written, when a write happened -/
  written : Option (List Nat)
  /-- the mode passed to `os.chmod`, when a chmod happened -/
  chmodMode : Option Nat
  /-- the computed hash printed on mismatch -/
  printedGot : Option String
  /-- the expected hash printed on mismatch -/
  printedExpected : Option String
  deriving DecidableEq

/-- Python `str.split(sep)` with a one-character separator: splits at
every occurrence of `sep`, keeping empty pieces (unlike split with no
argument). -/
def splitOnCharAux (sep : Char) : List Char → List Char → List (List Char)
  | [], acc => [acc.reverse]
  | c :: rest, acc =>
    if c = sep then acc.reverse :: splitOnCharAux sep rest []
    else splitOnCharAux sep rest (c :: acc)

/-- Python `s.split(sep)` for a one-character separator `sep`. -/
def pySplit (sep : Char) (s : String) : List String :=
  (splitOnCharAux sep s.toList []).map (fun l => String.mk l)

/-- The version comparison on line 14 of `bootstrap.py`:
`WAFRELEASE.split('-')[1] == wafver.split(' ')[1]`.  Python list indexing
raises `IndexError` when out of range, hence the `Option`. -/
def wafVersionMatches (wafver : String) : Option Bool :=
  match (pySplit '-' WAFRELEASE).get? 1, (pySplit ' ' wafver).get? 1 with
  | some a, some b => some (a == b)
  | _, _ => none

/-- The download/verify half of `bootstrap.py` (lines 23-38), reached when
the skip branch was not taken.  `sha256hex` abstracts
`hashlib.sha256(...).hexdigest()`. -/
def bootstrapDownload (sha256hex : List Nat → String) (w : BootWorld) :
    BootResult :=
  if SHA256HASH == sha256hex w.payload then
    { status := .exited 0, madeRequest := true, wroteFile := true,
      written := some w.payload,
      chmodMode := some (w.modeAfterWrite ||| S_IXUSR),
      printedGot := none, printedExpected := none }
  else
    { status := .exited 1, madeRequest := true, wroteFile := false,
      written := none, chmodMode := none,
      printedGot := some (sha256hex w.payload),
      printedExpected := some SHA256HASH }

/-- The whole of `bootstrap.py`: the existing-file skip branch
(lines 12-16) followed by download and verification (lines 23-38). -/
def bootstrap (sha256hex : List Nat → String) (w : BootWorld) : BootResult :=
  if w.wafExists then
    match wafVersionMatches w.wafVersionOut with
    | none =>
      { status := .crashed, madeRequest := false, wroteFile := false,
        written := none, chmodMode := none,
        printedGot := none, printedExpected := none }
    | some true =>
      { status := .exited 0, madeRequest := false, wroteFile := false,
        written := none, chmodMode := none,
        printedGot := none, printedExpected := none }
    | some false => bootstrapDownload sha256hex w
  else bootstrapDownload sha256hex w

/-! ## Dependency probes (`waftools/checks/custom.py`)

The build context is the mutable waf configuration object; only the parts
the probes in `custom.py` touch are modelled.  The host system's responses
to compile probes and pkg-config queries are an `Env` oracle.  Each probe
additionally returns the trace of probe attempts it made, in order. -/

/-- The keyword arguments a `check_cc` compile probe is built from (only
those used in `custom.py`).  Unpassed arguments default to the empty
value, which is also what waf's defaults denote. -/
structure CcArgs where
  fragment : String := ""
  cflags : String := ""
  lib : String := ""
  use : List String := []
  execute : Bool := false
  header_name : String := ""
  defines : List String := []
  deriving DecidableEq

/-- The host system as the probes observe it: whether a given compile
probe compiles/links/executes, whether a pkg-config query resolves, and
what `. /etc/oss.conf && echo $OSSLIBDIR` prints (stripped). -/
structure Env where
  ccOk : CcArgs → Bool
  pkgOk : String → Bool
  osslibdir : String

/-- The build context fields read or written by `custom.py`:
`env.DEST_OS`, `env.LIB_LIBDL`, `options.LUA_VER` (empty string when the
option is unset, matching Python falsiness), the satisfied-dependency set,
the defined preprocessor keys, the uselib stores filled by pkg-config,
and the optional messages. -/
structure Ctx where
  dest_os : String
  lib_libdl : List String
  lua_ver : String
  satisfied : List String
  defines : List String
  stores : List String
  messages : List (String × String)
  deriving DecidableEq

/-- One attempted probe step: a compile probe or a pkg-config query. -/
inductive Event where
  | cc (args : CcArgs)
  | pkg (query : String)
  deriving DecidableEq

/-- Whether an event is a pkg-config query. -/
def Event.isPkg : Event → Bool
  | .pkg _ => true
  | .cc _ => false

/-- A probe: given the host environment, a build context and a dependency
identifier, produce the boolean result, the updated context and the trace
of attempts. -/
def Probe : Type := Env → Ctx → String → Bool × Ctx × List Event

/-- Modelled from the spec: `check_cc` (from `waftools/checks/generic.py`,
not under verification) attempts to compile (and optionally execute) a
source fragment with the given flags/defines/libraries; failure is a
normal not-found result and the context is left untouched. -/
def check_cc (args : CcArgs) : Probe :=
  fun env ctx _ => (env.ccOk args, ctx, [.cc args])

/-- Modelled from the spec: `check_pkg_config` (external primitive)
queries the package database with a version-constrained query and, on
success, records the discovered flags under the given uselib store. -/
def check_pkg_config (query uselib_store : String) : Probe :=
  fun env ctx _ =>
    if env.pkgOk query then
      (true, { ctx with stores := ctx.stores ++ [uselib_store] }, [.pkg query])
    else (false, ctx, [.pkg query])

/-- Modelled from the spec: `check_libs` (external primitive) tries
linking against each candidate library name in order until the inner
compile probe succeeds, short-circuiting on first success.  The inner
probe is the compile-probe descriptor whose library `check_libs` sets. -/
def check_libs : List String → CcArgs → Probe
  | [], _ => fun _ ctx _ => (false, ctx, [])
  | c :: cs, inner => fun env ctx dep =>
    let r1 := check_cc { inner with lib := c } env ctx dep
    if r1.1 then (true, r1.2.1, r1.2.2)
    else
      let r2 := check_libs cs inner env r1.2.1 dep
      (r2.1, r2.2.1, r1.2.2 ++ r2.2.2)

/-- Modelled from the spec: `compose_checks` (external primitive) is the
short-circuiting logical AND of two probes, run in order. -/
def compose_checks (a b : Probe) : Probe :=
  fun env ctx dep =>
    let ra := a env ctx dep
    if ra.1 then
      let rb := b env ra.2.1 dep
      (rb.1, rb.2.1, ra.2.2 ++ rb.2.2)
    else (false, ra.2.1, ra.2.2)

/-- Modelled from the spec: the contents of the fragment file
`pthreads.c` loaded by `load_fragment`; the file is not under
verification, so it is an opaque marker string. -/
def pthreads_program : String := "fragment pthreads.c"

/-- The platform cflags table of `check_pthreads` (lines 12-18):
`{...}.get(ctx.env.DEST_OS, '')`. -/
def pthreads_platform_cflags (dest_os : String) : String :=
  if dest_os = "linux" then "-D_REENTRANT"
  else if dest_os = "freebsd" then "-D_THREAD_SAFE"
  else if dest_os = "netbsd" then "-D_THREAD_SAFE"
  else if dest_os = "openbsd" then "-D_THREAD_SAFE"
  else if dest_os = "win32" then "-DPTW32_STATIC_LIB"
  else ""

/-- `check_pthreads` from `custom.py` lines 11-25: two library-candidate
scans, first with the platform define, then without, short-circuiting. -/
def check_pthreads : Probe :=
  fun env ctx dep =>
    let platform_cflags := pthreads_platform_cflags ctx.dest_os
    let libs := ["pthreadGC2", "pthread"]
    let checkfn : CcArgs :=
      { fragment := pthreads_program, cflags := platform_cflags }
    let checkfn_nocflags : CcArgs := { fragment := pthreads_program }
    let r1 := check_libs libs checkfn env ctx dep
    if r1.1 then (true, r1.2.1, r1.2.2)
    else
      let r2 := check_libs libs checkfn_nocflags env r1.2.1 dep
      (r2.1, r2.2.1, r1.2.2 ++ r2.2.2)

/-- Modelled from the spec: contents of the fragment file `iconv.c`. -/
def iconv_program : String := "fragment iconv.c"

/-- `check_iconv` from `custom.py` lines 27-32. -/
def check_iconv : Probe :=
  fun env ctx dep =>
    let libdliconv := String.intercalate " " (ctx.lib_libdl ++ ["iconv"])
    let libs := ["iconv", libdliconv]
    let checkfn : CcArgs := { fragment := iconv_program }
    check_libs libs checkfn env ctx dep

/-- `ctx.dependency_satisfied(name)`: modelled from the spec: the build
context records which dependencies earlier probes found. -/
def Ctx.dependency_satisfied (ctx : Ctx) (name : String) : Bool :=
  ctx.satisfied.contains name

/-- `ctx.mark_satisfied(name)`: modelled from the spec ("records the
matched version tag as an additional discovered fact"). -/
def Ctx.mark_satisfied (ctx : Ctx) (name : String) : Ctx :=
  { ctx with satisfied := ctx.satisfied ++ [name] }

/-- `ctx.add_optional_message(dep, msg)`: modelled from the spec (an
optional diagnostic message attached to the dependency). -/
def Ctx.add_optional_message (ctx : Ctx) (dep msg : String) : Ctx :=
  { ctx with messages := ctx.messages ++ [(dep, msg)] }

/-- Modelled from the spec: contents of the fragment files
`lua_libquvi4.c` and `lua_libquvi9.c`. -/
def lua_libquvi4_fragment : String := "fragment lua_libquvi4.c"

/-- Modelled from the spec: contents of the fragment file
`lua_libquvi9.c`. -/
def lua_libquvi9_fragment : String := "fragment lua_libquvi9.c"

/-- Modelled from the spec: `load_fragment('lua.c').format(...)` — the
`lua.c` template file is not under verification; the formatted result is
an opaque function of the two substituted strings. -/
def lua_fragment_template (hdr code : String) : String :=
  "fragment lua.c " ++ hdr ++ " " ++ code

/-- The quvi companion-library selection of `check_lua` (lines 35-46):
the uselib storage list, the additional test header and the additional
test code. -/
def lua_quvi_selection (ctx : Ctx) : List String × String × String :=
  if ctx.dependency_satisfied "libquvi4" then
    (["libquvi4"], "#include <quvi/quvi.h>", lua_libquvi4_fragment)
  else if ctx.dependency_satisfied "libquvi9" then
    (["libquvi9"], "#include <quvi.h>", lua_libquvi9_fragment)
  else ([], "", "")

/-- The fixed priority-ordered candidate list of `check_lua`
(lines 52-59). -/
def lua_versions : List (String × String) :=
  [("51", "lua >= 5.1.0 lua < 5.2.0"),
   ("51deb", "lua5.1 >= 5.1.0"),
   ("luajit", "luajit >= 2.0.0"),
   ("52", "lua >= 5.2.0"),
   ("52deb", "lua5.2 >= 5.2.0")]

/-- The compile-and-execute probe descriptor `check_lua` builds for a
candidate version tag: `fragment=fragment, use=[lua_version] +
quvi_lib_storage, execute=True`. -/
def luaCandArgs (frag : String) (quvi : List String) (lv : String) :
    CcArgs :=
  { fragment := frag, use := [lv] ++ quvi, execute := true }

/-- The scan loop of `check_lua` (lines 65-77): for each remaining
candidate, compose the pkg-config check with the compile-and-execute
check; on success mark the version satisfied, add the optional message
and stop. -/
def check_lua_scan (env : Env) (frag : String) (quvi : List String)
    (dep : String) : List (String × String) → Ctx → Bool × Ctx × List Event
  | [], ctx => (false, ctx, [])
  | (lua_version, pkgconfig_query) :: rest, ctx =>
    let r := compose_checks
      (check_pkg_config pkgconfig_query lua_version)
      (check_cc (luaCandArgs frag quvi lua_version)) env ctx dep
    if r.1 then
      (true,
       ((r.2.1.mark_satisfied lua_version).add_optional_message dep
         ("version found: " ++ lua_version)),
       r.2.2)
    else
      let r2 := check_lua_scan env frag quvi dep rest r.2.1
      (r2.1, r2.2.1, r.2.2 ++ r2.2.2)

/-- `check_lua` from `custom.py` lines 34-77. -/
def check_lua : Probe :=
  fun env ctx dep =>
    let sel := lua_quvi_selection ctx
    let quvi_lib_storage := sel.1
    let fragment := lua_fragment_template sel.2.1 sel.2.2
    let versions :=
      if ctx.lua_ver ≠ "" then
        lua_versions.filter (fun lv => lv.1 == ctx.lua_ver)
      else lua_versions
    check_lua_scan env fragment quvi_lib_storage dep versions ctx

/-- Modelled from the spec: `DependencyInflector(dep).define_key()` (from
`waftools/inflectors.py`, not under verification) derives the
preprocessor define key for a dependency identifier. -/
def define_key (dep : String) : String := "HAVE_" ++ dep

/-- `ctx.undefine(key)`: modelled from the spec ("clears any
previously-set define for this dependency"). -/
def Ctx.undefine (ctx : Ctx) (key : String) : Ctx :=
  { ctx with defines := ctx.defines.filter (fun d => d != key) }

/-- Modelled from the spec: contents of the fragment file
`oss_audio.c`. -/
def oss_audio_fragment : String := "fragment oss_audio.c"

/-- `os.path.join(a, b)` for the relative second components used in
`check_oss_4front`. -/
def path_join (a b : String) : String :=
  if a.endsWith "/" then a ++ b else a ++ "/" ++ b

/-- `check_oss_4front` from `custom.py` lines 86-104.  `__get_osslibdir()`
is the `env.osslibdir` oracle (the stripped output of sourcing
`/etc/oss.conf` and echoing `$OSSLIBDIR`). -/
def check_oss_4front : Probe :=
  fun env ctx dep =>
    let oss_libdir := env.osslibdir
    if oss_libdir = "" then
      (false, ctx.undefine (define_key dep), [])
    else
      let soundcard_h := path_join oss_libdir "include/sys/soundcard.h"
      let include_dir := path_join oss_libdir "include"
      check_cc { header_name := soundcard_h,
                 defines := ["PATH_DEV_DSP=\"/dev/dsp\"",
                             "PATH_DEV_MIXER=\"/dev/mixer\""],
                 cflags := "-I" ++ include_dir,
                 fragment := oss_audio_fragment } env ctx dep

/-! ## Theorems: bootstrap script -/

/-- When the script reached the download (the skip branch did not fire),
the run is exactly the download/verify half. -/
theorem bootstrap_madeRequest_eq (sha256hex : List Nat → String)
    (w : BootWorld) (hreq : (bootstrap sha256hex w).madeRequest = true) :
    bootstrap sha256hex w = bootstrapDownload sha256hex w := by
  cases hex : w.wafExists with
  | false => simp [bootstrap, hex]
  | true =>
    rcases hm : wafVersionMatches w.wafVersionOut with _ | b
    · simp [bootstrap, hex, hm] at hreq
    · cases b with
      | false => simp [bootstrap, hex, hm]
      | true => simp [bootstrap, hex, hm] at hreq

/-- Claim C1: for every downloaded payload whose SHA-256 digest equals
the pinned hash constant, the bootstrapper writes a file named `waf`
whose bytes are identical to the payload, sets the owner-execute
permission bit while preserving all other existing permission bits, and
exits with status 0. -/
theorem bootstrap_hash_match (sha256hex : List Nat → String) (w : BootWorld)
    (hreq : (bootstrap sha256hex w).madeRequest = true)
    (hh : sha256hex w.payload = SHA256HASH) :
    (bootstrap sha256hex w).wroteFile = true ∧
    (bootstrap sha256hex w).written = some w.payload ∧
    (bootstrap sha256hex w).chmodMode = some (w.modeAfterWrite ||| S_IXUSR) ∧
    Nat.testBit (w.modeAfterWrite ||| S_IXUSR) 6 = true ∧
    (∀ i, i ≠ 6 → Nat.testBit (w.modeAfterWrite ||| S_IXUSR) i =
      Nat.testBit w.modeAfterWrite i) ∧
    (bootstrap sha256hex w).status = BootStatus.exited 0 := by
  rw [bootstrap_madeRequest_eq sha256hex w hreq]
  have hcond : (SHA256HASH == sha256hex w.payload) = true := by
    rw [hh]
    exact beq_self_eq_true SHA256HASH
  have h6 : Nat.testBit S_IXUSR 6 = true := by decide
  refine ⟨?_, ?_, ?_, ?_, ?_, ?_⟩
  · simp [bootstrapDownload, hcond]
  · simp [bootstrapDownload, hcond]
  · simp [bootstrapDownload, hcond]
  · simp [Nat.testBit_or, h6]
  · intro i hi
    have h64 : Nat.testBit S_IXUSR i = false :=
      @Nat.testBit_two_pow_of_ne 6 i (by omega)
    simp [Nat.testBit_or, h64]
  · simp [bootstrapDownload, hcond]

/-- Concrete hash oracle for the witnesses: every payload hashes to the
pinned value. -/
def hashOracleMatch : List Nat → String := fun _ => SHA256HASH

/-- Concrete hash oracle for the witnesses: every payload hashes to a
value different from the pinned one. -/
def hashOracleMismatch : List Nat → String := fun _ => "deadbeef"

/-- Concrete world with no pre-existing `waf` file. -/
def bootWorldFresh : BootWorld :=
  { wafExists := false, wafVersionOut := "", payload := [1, 2, 3],
    modeAfterWrite := 420 }

/-- Concrete world with an existing `waf` reporting the pinned version. -/
def bootWorldExisting : BootWorld :=
  { wafExists := true, wafVersionOut := "waf 1.8.1 (abcdef)", payload := [],
    modeAfterWrite := 0 }

/-- Witness for C1 at a concrete world and hash oracle. -/
theorem bootstrap_hash_match_witness :
    (bootstrap hashOracleMatch bootWorldFresh).madeRequest = true ∧
    hashOracleMatch bootWorldFresh.payload = SHA256HASH ∧
    (bootstrap hashOracleMatch bootWorldFresh).wroteFile = true ∧
    (bootstrap hashOracleMatch bootWorldFresh).written =
      some bootWorldFresh.payload ∧
    (bootstrap hashOracleMatch bootWorldFresh).status = BootStatus.exited 0 :=
  ⟨rfl, rfl,
   (bootstrap_hash_match hashOracleMatch bootWorldFresh rfl rfl).1,
   (bootstrap_hash_match hashOracleMatch bootWorldFresh rfl rfl).2.1,
   (bootstrap_hash_match hashOracleMatch bootWorldFresh rfl rfl).2.2.2.2.2⟩

/-- Claim C2: for every downloaded payload whose SHA-256 digest differs
from the pinned hash, the bootstrapper writes no file, performs no other
filesystem action, reports both the computed and the expected hash, and
terminates with exit status 1. -/
theorem bootstrap_hash_mismatch (sha256hex : List Nat → String)
    (w : BootWorld) (hreq : (bootstrap sha256hex w).madeRequest = true)
    (hh : sha256hex w.payload ≠ SHA256HASH) :
    (bootstrap sha256hex w).wroteFile = false ∧
    (bootstrap sha256hex w).written = none ∧
    (bootstrap sha256hex w).chmodMode = none ∧
    (bootstrap sha256hex w).printedGot = some (sha256hex w.payload) ∧
    (bootstrap sha256hex w).printedExpected = some SHA256HASH ∧
    (bootstrap sha256hex w).status = BootStatus.exited 1 := by
  rw [bootstrap_madeRequest_eq sha256hex w hreq]
  have hcond : (SHA256HASH == sha256hex w.payload) = false := by
    rw [beq_eq_false_iff_ne]
    exact Ne.symm hh
  simp [bootstrapDownload, hcond]

/-- Witness for C2 at a concrete world and hash oracle. -/
theorem bootstrap_hash_mismatch_witness :
    (bootstrap hashOracleMismatch bootWorldFresh).madeRequest = true ∧
    hashOracleMismatch bootWorldFresh.payload ≠ SHA256HASH ∧
    (bootstrap hashOracleMismatch bootWorldFresh).wroteFile = false ∧
    (bootstrap hashOracleMismatch bootWorldFresh).status =
      BootStatus.exited 1 :=
  ⟨rfl, by decide,
   (bootstrap_hash_mismatch hashOracleMismatch bootWorldFresh rfl
     (by decide)).1,
   (bootstrap_hash_mismatch hashOracleMismatch bootWorldFresh rfl
     (by decide)).2.2.2.2.2⟩

/-- Claim C3: if a file named `waf` already exists and the version it
reports matches the version component of the pinned release name, the
bootstrapper makes no network request, performs no download or write, and
exits with status 0. -/
theorem bootstrap_skip_existing (sha256hex : List Nat → String)
    (w : BootWorld) (hex : w.wafExists = true)
    (hver : wafVersionMatches w.wafVersionOut = some true) :
    (bootstrap sha256hex w).madeRequest = false ∧
    (bootstrap sha256hex w).wroteFile = false ∧
    (bootstrap sha256hex w).written = none ∧
    (bootstrap sha256hex w).chmodMode = none ∧
    (bootstrap sha256hex w).status = BootStatus.exited 0 := by
  simp [bootstrap, hex, hver]

/-- Witness for C3 at a concrete world. -/
theorem bootstrap_skip_existing_witness :
    bootWorldExisting.wafExists = true ∧
    wafVersionMatches bootWorldExisting.wafVersionOut = some true ∧
    (bootstrap hashOracleMatch bootWorldExisting).madeRequest = false ∧
    (bootstrap hashOracleMatch bootWorldExisting).status =
      BootStatus.exited 0 :=
  ⟨rfl, by decide,
   (bootstrap_skip_existing hashOracleMatch bootWorldExisting rfl
     (by decide)).1,
   (bootstrap_skip_existing hashOracleMatch bootWorldExisting rfl
     (by decide)).2.2.2.2⟩

/-! ## Theorems: library-candidate scans -/

/-- The canonical trace of an ordered first-success scan over compile
probes: each probe is attempted once, in order, stopping after the first
success. -/
def orderedAttempts (env : Env) : List CcArgs → List Event
  | [] => []
  | a :: rest =>
    Event.cc a :: (if env.ccOk a then [] else orderedAttempts env rest)

/-- A candidate scan never modifies the build context. -/
theorem check_libs_ctx (cs : List String) (inner : CcArgs) (env : Env)
    (ctx : Ctx) (dep : String) :
    (check_libs cs inner env ctx dep).2.1 = ctx := by
  induction cs generalizing ctx with
  | nil => rfl
  | cons c cs ih =>
    simp only [check_libs, check_cc]
    cases h : env.ccOk { inner with lib := c } <;> simp [h, ih]

/-- A candidate scan succeeds exactly when some candidate's probe
compiles and links. -/
theorem check_libs_fst (cs : List String) (inner : CcArgs) (env : Env)
    (ctx : Ctx) (dep : String) :
    (check_libs cs inner env ctx dep).1 =
      cs.any (fun c => env.ccOk { inner with lib := c }) := by
  induction cs generalizing ctx with
  | nil => rfl
  | cons c cs ih =>
    simp only [check_libs, check_cc]
    cases h : env.ccOk { inner with lib := c } <;> simp [h, ih]

/-- A candidate scan attempts each candidate once, in order, stopping at
the first success. -/
theorem check_libs_trace (cs : List String) (inner : CcArgs) (env : Env)
    (ctx : Ctx) (dep : String) :
    (check_libs cs inner env ctx dep).2.2 =
      orderedAttempts env (cs.map (fun c => { inner with lib := c })) := by
  induction cs generalizing ctx with
  | nil => rfl
  | cons c cs ih =>
    simp only [check_libs, check_cc]
    cases h : env.ccOk { inner with lib := c } <;>
      simp [h, ih, orderedAttempts]

/-- The four (define × library) combinations `check_pthreads` attempts on
linux, in attempt order. -/
def pthreads_linux_attempts : List CcArgs :=
  [{ fragment := pthreads_program, cflags := "-D_REENTRANT",
     lib := "pthreadGC2" },
   { fragment := pthreads_program, cflags := "-D_REENTRANT",
     lib := "pthread" },
   { fragment := pthreads_program, lib := "pthreadGC2" },
   { fragment := pthreads_program, lib := "pthread" }]

/-- Claim C4: on linux the `-D_REENTRANT` combinations are attempted
before the no-flag variants, with libraries tried in the order
`pthreadGC2` then `pthread` within each variant, and the probe returns
true iff at least one of the four combinations compiles and links. -/
theorem check_pthreads_linux (env : Env) (ctx : Ctx) (dep : String)
    (hos : ctx.dest_os = "linux") :
    (check_pthreads env ctx dep).1 = pthreads_linux_attempts.any env.ccOk ∧
    (check_pthreads env ctx dep).2.2 =
      orderedAttempts env pthreads_linux_attempts := by
  have hcf : pthreads_platform_cflags ctx.dest_os = "-D_REENTRANT" := by
    rw [hos]
    decide
  simp only [check_pthreads, hcf, check_libs_fst, check_libs_ctx,
    check_libs_trace, pthreads_linux_attempts]
  cases h1 : env.ccOk { fragment := pthreads_program, cflags := "-D_REENTRANT", lib := "pthreadGC2" } <;>
  cases h2 : env.ccOk { fragment := pthreads_program, cflags := "-D_REENTRANT", lib := "pthread" } <;>
  cases h3 : env.ccOk { fragment := pthreads_program, lib := "pthreadGC2" } <;>
  cases h4 : env.ccOk { fragment := pthreads_program, lib := "pthread" } <;>
    simp [h1, h2, h3, h4, orderedAttempts]

/-- Host environment where nothing is installed, for the witnesses. -/
def env0 : Env :=
  { ccOk := fun _ => false, pkgOk := fun _ => false, osslibdir := "" }

/-- Concrete linux build context for the witnesses. -/
def ctx0 : Ctx :=
  { dest_os := "linux", lib_libdl := ["dl"], lua_ver := "",
    satisfied := [], defines := [], stores := [], messages := [] }

/-- Witness for C4 at a concrete environment and context. -/
theorem check_pthreads_linux_witness :
    ctx0.dest_os = "linux" ∧
    (check_pthreads env0 ctx0 "pthreads").1 =
      pthreads_linux_attempts.any env0.ccOk :=
  ⟨rfl, (check_pthreads_linux env0 ctx0 "pthreads" rfl).1⟩

/-- The second iconv link strategy of `check_iconv`:
`" ".join(ctx.env.LIB_LIBDL + ['iconv'])`. -/
def iconv_dl_lib (ctx : Ctx) : String :=
  String.intercalate " " (ctx.lib_libdl ++ ["iconv"])

/-- Claim C8: the iconv probe tries exactly two library link strategies
in order — bare `iconv` first, then `iconv` combined with the platform's
dynamic-loading libraries — against one fixed probe fragment, returning
true on the first that compiles and links and false if neither does. -/
theorem check_iconv_strategies (env : Env) (ctx : Ctx) (dep : String) :
    (check_iconv env ctx dep).1 =
      (env.ccOk { fragment := iconv_program, lib := "iconv" } ||
       env.ccOk { fragment := iconv_program, lib := iconv_dl_lib ctx }) ∧
    (check_iconv env ctx dep).2.2 =
      orderedAttempts env
        [{ fragment := iconv_program, lib := "iconv" },
         { fragment := iconv_program, lib := iconv_dl_lib ctx }] := by
  simp only [check_iconv, check_libs_fst, check_libs_trace, iconv_dl_lib]
  cases h1 : env.ccOk { fragment := iconv_program, lib := "iconv" } <;>
  cases h2 : env.ccOk { fragment := iconv_program, lib := String.intercalate " " (ctx.lib_libdl ++ ["iconv"]) } <;>
    simp [h1, h2, orderedAttempts, iconv_dl_lib]

/-- The single two-candidate scan with empty flags that `check_pthreads`
reduces to on platforms absent from its cflags table; this is the
spec-side comparison definition for the refinement claim. -/
def pthreads_single_scan : Probe :=
  check_libs ["pthreadGC2", "pthread"] { fragment := pthreads_program }

/-- Claim C10: for every target OS not in the pthreads platform table,
the platform define is the empty string, the with-define and no-define
probes are the same probe, and the result of `check_pthreads` equals
that of a single two-candidate scan with empty flags. -/
theorem check_pthreads_default_platform (env : Env) (ctx : Ctx)
    (dep : String)
    (hos : ctx.dest_os ∉
      (["linux", "freebsd", "netbsd", "openbsd", "win32"] : List String)) :
    pthreads_platform_cflags ctx.dest_os = "" ∧
    ({ fragment := pthreads_program,
       cflags := pthreads_platform_cflags ctx.dest_os } : CcArgs) =
      { fragment := pthreads_program } ∧
    (check_pthreads env ctx dep).1 = (pthreads_single_scan env ctx dep).1 := by
  simp only [List.mem_cons, List.not_mem_nil, or_false, not_or] at hos
  obtain ⟨h1, h2, h3, h4, h5⟩ := hos
  have hcf : pthreads_platform_cflags ctx.dest_os = "" := by
    simp [pthreads_platform_cflags, h1, h2, h3, h4, h5]
  refine ⟨hcf, by rw [hcf], ?_⟩
  simp only [check_pthreads, pthreads_single_scan, hcf, check_libs_fst,
    check_libs_ctx]
  cases h : List.any ["pthreadGC2", "pthread"] (fun c => env.ccOk { fragment := pthreads_program, lib := c }) <;>
    simp [h]

/-- Concrete context on a platform outside the pthreads table. -/
def ctxDarwin : Ctx := { ctx0 with dest_os := "darwin" }

/-- Witness for C10 at a concrete environment and context. -/
theorem check_pthreads_default_platform_witness :
    ctxDarwin.dest_os ∉
      (["linux", "freebsd", "netbsd", "openbsd", "win32"] : List String) ∧
    pthreads_platform_cflags ctxDarwin.dest_os = "" :=
  ⟨by decide,
   (check_pthreads_default_platform env0 ctxDarwin "pthreads" (by decide)).1⟩

/-! ## Theorems: Lua probe -/

/-- A Lua candidate succeeds when its pkg-config query resolves and the
augmented fragment compiles and executes. -/
def luaCandOk (env : Env) (frag : String) (quvi : List String)
    (cand : String × String) : Bool :=
  env.pkgOk cand.2 && env.ccOk (luaCandArgs frag quvi cand.1)

/-- The events one Lua candidate contributes: its pkg-config query, then
the compile probe only if the query resolved. -/
def luaCandTrace (env : Env) (frag : String) (quvi : List String)
    (cand : String × String) : List Event :=
  Event.pkg cand.2 ::
    (if env.pkgOk cand.2 then [Event.cc (luaCandArgs frag quvi cand.1)]
     else [])

/-- The canonical trace of the Lua candidate scan: candidates in declared
order, each attempted once, stopping after the first success. -/
def luaScanTrace (env : Env) (frag : String) (quvi : List String) :
    List (String × String) → List Event
  | [] => []
  | c :: cs =>
    luaCandTrace env frag quvi c ++
      (if luaCandOk env frag quvi c then []
       else luaScanTrace env frag quvi cs)

/-- One Lua candidate step evaluated: result, context update and trace of
the composed pkg-config and compile checks. -/
theorem lua_step (env : Env) (q lv : String) (a : CcArgs) (ctx : Ctx)
    (dep : String) :
    compose_checks (check_pkg_config q lv) (check_cc a) env ctx dep =
      (env.pkgOk q && env.ccOk a,
       (if env.pkgOk q then { ctx with stores := ctx.stores ++ [lv] }
        else ctx),
       Event.pkg q :: (if env.pkgOk q then [Event.cc a] else [])) := by
  cases hp : env.pkgOk q <;> cases hc : env.ccOk a <;>
    simp [compose_checks, check_pkg_config, check_cc, hp, hc]

/-- The Lua candidate scan: its result is first-success over the declared
order, its trace is the canonical once-per-candidate trace, and it
appends exactly the first successful candidate's version tag to the
satisfied set. -/
theorem check_lua_scan_spec (env : Env) (frag : String)
    (quvi : List String) (dep : String) (l : List (String × String)) :
    ∀ ctx : Ctx,
    (check_lua_scan env frag quvi dep l ctx).1 =
      l.any (luaCandOk env frag quvi) ∧
    (check_lua_scan env frag quvi dep l ctx).2.2 =
      luaScanTrace env frag quvi l ∧
    (check_lua_scan env frag quvi dep l ctx).2.1.satisfied =
      ctx.satisfied ++
        ((l.find? (luaCandOk env frag quvi)).map Prod.fst).toList := by
  induction l with
  | nil => intro ctx; simp [check_lua_scan, luaScanTrace]
  | cons c cs ih =>
    intro ctx
    obtain ⟨lv, q⟩ := c
    simp only [check_lua_scan, lua_step]
    cases hp : env.pkgOk q <;>
      cases hc : env.ccOk (luaCandArgs frag quvi lv) <;>
      simp [luaCandOk, luaCandTrace, luaScanTrace, hp, hc, ih,
        Ctx.mark_satisfied, Ctx.add_optional_message, List.find?_cons]

/-- The fragment `check_lua` formats for a given build context. -/
def lua_ctx_fragment (ctx : Ctx) : String :=
  lua_fragment_template (lua_quvi_selection ctx).2.1
    (lua_quvi_selection ctx).2.2

/-- Claim C7: with no version restriction the Lua probe scans the
candidate list in the fixed declared order, tries each candidate exactly
once, stops at the first candidate whose pkg-config query resolves and
whose augmented fragment compiles and executes, records that candidate's
version tag as satisfied, and returns false only when no candidate
matches. -/
theorem check_lua_ordered_scan (env : Env) (ctx : Ctx) (dep : String)
    (hv : ctx.lua_ver = "") :
    (check_lua env ctx dep).1 =
      lua_versions.any
        (luaCandOk env (lua_ctx_fragment ctx) (lua_quvi_selection ctx).1) ∧
    (check_lua env ctx dep).2.2 =
      luaScanTrace env (lua_ctx_fragment ctx) (lua_quvi_selection ctx).1
        lua_versions ∧
    (check_lua env ctx dep).2.1.satisfied =
      ctx.satisfied ++
        ((lua_versions.find?
            (luaCandOk env (lua_ctx_fragment ctx)
              (lua_quvi_selection ctx).1)).map Prod.fst).toList := by
  have h := check_lua_scan_spec env (lua_ctx_fragment ctx)
    (lua_quvi_selection ctx).1 dep lua_versions ctx
  simpa [check_lua, hv, lua_ctx_fragment] using h

/-- Witness for C7 at a concrete environment and context. -/
theorem check_lua_ordered_scan_witness :
    ctx0.lua_ver = "" ∧
    (check_lua env0 ctx0 "lua").1 =
      lua_versions.any
        (luaCandOk env0 (lua_ctx_fragment ctx0) (lua_quvi_selection ctx0).1) :=
  ⟨rfl, (check_lua_ordered_scan env0 ctx0 "lua" rfl).1⟩

/-- Claim C5: when the Lua version option is `52deb`, the Lua probe
attempts only the Debian 5.2 pkg-config query `lua5.2 >= 5.2.0` and no
other candidate query, regardless of the host environment. -/
theorem check_lua_52deb_only (env : Env) (ctx : Ctx) (dep : String)
    (hv : ctx.lua_ver = "52deb") :
    (check_lua env ctx dep).2.2.filter Event.isPkg =
      [Event.pkg "lua5.2 >= 5.2.0"] := by
  have hne : ("52deb" : String) ≠ "" := by decide
  have hfil : lua_versions.filter (fun lv => lv.1 == ("52deb" : String)) =
      [("52deb", "lua5.2 >= 5.2.0")] := by decide
  have htr := (check_lua_scan_spec env
    (lua_fragment_template (lua_quvi_selection ctx).2.1
      (lua_quvi_selection ctx).2.2)
    (lua_quvi_selection ctx).1 dep [("52deb", "lua5.2 >= 5.2.0")] ctx).2.1
  simp only [check_lua, hv, if_pos hne, hfil, htr]
  cases hp : env.pkgOk "lua5.2 >= 5.2.0" <;>
    simp [luaScanTrace, luaCandTrace, luaCandOk, Event.isPkg, hp]

/-- Concrete context restricted to the Debian 5.2 Lua version. -/
def ctx52 : Ctx := { ctx0 with lua_ver := "52deb" }

/-- Witness for C5 at a concrete environment and context. -/
theorem check_lua_52deb_only_witness :
    ctx52.lua_ver = "52deb" ∧
    (check_lua env0 ctx52 "lua").2.2.filter Event.isPkg =
      [Event.pkg "lua5.2 >= 5.2.0"] :=
  ⟨rfl, check_lua_52deb_only env0 ctx52 "lua" rfl⟩

/-- Claim C9: when the Lua version option is set to a string that is not
one of the five known version tags, the filtered candidate list is empty,
so the Lua probe returns false without attempting any pkg-config query or
compile probe and leaves the build context unchanged. -/
theorem check_lua_unknown_version (env : Env) (ctx : Ctx) (dep : String)
    (h0 : ctx.lua_ver ≠ "")
    (h : ctx.lua_ver ∉
      (["51", "51deb", "luajit", "52", "52deb"] : List String)) :
    check_lua env ctx dep = (false, ctx, []) := by
  simp only [List.mem_cons, List.not_mem_nil, or_false, not_or] at h
  obtain ⟨h1, h2, h3, h4, h5⟩ := h
  have hb1 : (("51" : String) == ctx.lua_ver) = false := by
    rw [beq_eq_false_iff_ne]
    exact fun e => h1 e.symm
  have hb2 : (("51deb" : String) == ctx.lua_ver) = false := by
    rw [beq_eq_false_iff_ne]
    exact fun e => h2 e.symm
  have hb3 : (("luajit" : String) == ctx.lua_ver) = false := by
    rw [beq_eq_false_iff_ne]
    exact fun e => h3 e.symm
  have hb4 : (("52" : String) == ctx.lua_ver) = false := by
    rw [beq_eq_false_iff_ne]
    exact fun e => h4 e.symm
  have hb5 : (("52deb" : String) == ctx.lua_ver) = false := by
    rw [beq_eq_false_iff_ne]
    exact fun e => h5 e.symm
  have hfil : lua_versions.filter (fun lv => lv.1 == ctx.lua_ver) = [] := by
    simp [lua_versions, hb1, hb2, hb3, hb4, hb5]
  simp only [check_lua, if_pos h0, hfil]
  rfl

/-- Concrete context restricted to an unknown Lua version tag. -/
def ctx60 : Ctx := { ctx0 with lua_ver := "60" }

/-- Witness for C9 at a concrete environment and context. -/
theorem check_lua_unknown_version_witness :
    ctx60.lua_ver ≠ "" ∧
    check_lua env0 ctx60 "lua" = (false, ctx60, []) :=
  ⟨by decide,
   check_lua_unknown_version env0 ctx60 "lua" (by decide) (by decide)⟩

/-! ## Theorems: OSS probe -/

/-- Claim C6: when sourcing the OS configuration file yields an empty
library directory, the OSS probe returns false and clears any previously
defined flag for the dependency, and the operation is idempotent: a
second run from the resulting context returns the identical result and
context. -/
theorem check_oss_4front_empty_libdir (env : Env) (ctx : Ctx)
    (dep : String) (hd : env.osslibdir = "") :
    (check_oss_4front env ctx dep).1 = false ∧
    define_key dep ∉ (check_oss_4front env ctx dep).2.1.defines ∧
    check_oss_4front env (check_oss_4front env ctx dep).2.1 dep =
      check_oss_4front env ctx dep := by
  refine ⟨?_, ?_, ?_⟩
  · simp [check_oss_4front, hd]
  · simp [check_oss_4front, hd, Ctx.undefine, List.mem_filter]
  · simp [check_oss_4front, hd, Ctx.undefine, List.filter_filter]

/-- Concrete context in which the OSS flag was previously defined. -/
def ctxDefined : Ctx := { ctx0 with defines := [define_key "oss-audio"] }

/-- Witness for C6 at a concrete environment and context. -/
theorem check_oss_4front_empty_libdir_witness :
    env0.osslibdir = "" ∧
    (check_oss_4front env0 ctxDefined "oss-audio").1 = false ∧
    define_key "oss-audio" ∉
      (check_oss_4front env0 ctxDefined "oss-audio").2.1.defines :=
  ⟨rfl,
   (check_oss_4front_empty_libdir env0 ctxDefined "oss-audio" rfl).1,
   (check_oss_4front_empty_libdir env0 ctxDefined "oss-audio" rfl).2.1⟩

end Mpv
